import Mathlib

/-!
Verification of the volatility analytics and risk-banding pipeline of the
portfolio-manager lambda functions (src/ses_handler.py, src/ses_handler_new.py,
src/risk_handler.py, src/s3_handler.py).

The stateful AWS pieces are embedded as explicit state passing: the DynamoDB
client record's `lastEmailSent` attribute is an `Option ℤ` (epoch seconds, or
`none` when the attribute does not exist), the PredictedVolatility table is a
function from ticker to the stored latest volatility, and the `/tmp` marker
file of the alternative handler is an `Option ℤ` mtime. Money-free numeric
code uses `ℚ` for the exact arithmetic the programs perform on small decimal
inputs.
-/

namespace PortfolioS3

/-- Embeds `try_mark_email_sent` (src/ses_handler.py, lines 115-135).  The
DynamoDB `update_item` runs with
`ConditionExpression = attribute_not_exists(lastEmailSent) OR lastEmailSent < :threshold`
where `:threshold = now - cooldown`, and `UpdateExpression = SET lastEmailSent = :now`.
The whole conditional update is one atomic mutation; on conditional failure the
stored state is unchanged and the function returns `False`.  The embedding
returns `(result, stored state after the call)`. -/
def tryMarkEmailSent (last : Option ℤ) (now cooldown : ℤ) : Bool × Option ℤ :=
  match last with
  | none => (true, some now)
  | some t => if t < now - cooldown then (true, some now) else (false, some t)

/-- Two concurrent invocations of the atomic gate for the same client: because
each invocation is a single atomic conditional mutation, every concurrent
execution is one of the two serial orders.  `aFirst` picks the order;
invocation A reads its clock as `nowA`, B as `nowB`.  Returns
`(result of A, result of B)`. -/
def runTwoAtomic (nowA nowB cooldown : ℤ) (s : Option ℤ) (aFirst : Bool) :
    Bool × Bool :=
  if aFirst then
    let ra := tryMarkEmailSent s nowA cooldown
    let rb := tryMarkEmailSent ra.2 nowB cooldown
    (ra.1, rb.1)
  else
    let rb := tryMarkEmailSent s nowB cooldown
    let ra := tryMarkEmailSent rb.2 nowA cooldown
    (ra.1, rb.1)

/-- Embeds the read step of `should_send_email_for_client`
(src/ses_handler_new.py, lines 251-276): the invocation is allowed to send
unless the marker file exists and `now - mtime < cooldown`. -/
def tmpGateRead (marker : Option ℤ) (now cooldown : ℤ) : Bool :=
  match marker with
  | none => true
  | some m => decide (cooldown ≤ now - m)

/-- One invocation of the `/tmp`-marker dedup gate of
`should_send_email_for_client` (src/ses_handler_new.py, lines 251-276), which
is a separate read step (`os.path.exists` + `os.path.getmtime` check) followed
by a separate write step (`open(path, "w")`), not an atomic conditional
mutation.  `pc = 0`: before the read; `pc = 1`: read done, `decision` holds the
gate's return value; `pc = 2`: finished (the marker write happens only on the
allowed path, which is also the only path that reaches the write). -/
structure TmpInv where
  pc : Nat
  decision : Bool
  now : ℤ
deriving DecidableEq

/-- Small-step semantics of one `/tmp`-gate invocation against the shared
marker: the read step records the decision, the write step updates the marker
mtime when the decision was to allow. -/
def tmpStep (cooldown : ℤ) (inv : TmpInv) (marker : Option ℤ) :
    TmpInv × Option ℤ :=
  match inv.pc with
  | 0 => ({ inv with pc := 1, decision := tmpGateRead marker inv.now cooldown },
          marker)
  | 1 =>
      if inv.decision then ({ inv with pc := 2 }, some inv.now)
      else ({ inv with pc := 2 }, marker)
  | _ => (inv, marker)

/-- Interleaved execution of two `/tmp`-gate invocations A and B over the
shared marker: the schedule lists whose turn it is (`true` = A moves). -/
def runTmpSchedule (cooldown : ℤ) :
    List Bool → TmpInv × TmpInv × Option ℤ → TmpInv × TmpInv × Option ℤ
  | [], st => st
  | moveA :: rest, (a, b, m) =>
      if moveA then
        let s := tmpStep cooldown a m
        runTmpSchedule cooldown rest (s.1, b, s.2)
      else
        let s := tmpStep cooldown b m
        runTmpSchedule cooldown rest (a, s.1, s.2)

/-- Initial state of one `/tmp`-gate invocation whose clock reads `now`. -/
def tmpInvStart (now : ℤ) : TmpInv := { pc := 0, decision := false, now := now }

/-- C1 counterexample: the dedup gate `should_send_email_for_client` of
src/ses_handler_new.py is a separate read step followed by a write step, and
under the interleaving read-A, read-B, write-A, write-B of two concurrent
invocations with no prior record (marker absent, cooldown 300), both
invocations return true — not exactly one, refuting the claim for this gate. -/
theorem C1_counterexample :
    (runTmpSchedule 300 [true, false, true, false]
      (tmpInvStart 1000, tmpInvStart 1000, none)).1.decision = true ∧
    (runTmpSchedule 300 [true, false, true, false]
      (tmpInvStart 1000, tmpInvStart 1000, none)).2.1.decision = true := by
  decide

/-- C1 (amended): the DynamoDB-based gate `try_mark_email_sent` of
src/ses_handler.py is a single atomic conditional mutation, and for two
concurrent invocations for the same client with no prior record whose clocks
are within the cooldown of each other, exactly one returns true in every
execution order; the `/tmp`-based gate `should_send_email_for_client` of
src/ses_handler_new.py is instead a separate read step followed by a write
step and admits an interleaving in which both concurrent invocations return
true. -/
theorem C1_amended_gate (nowA nowB cooldown : ℤ) (aFirst : Bool)
    (hAB : nowB - nowA ≤ cooldown) (hBA : nowA - nowB ≤ cooldown) :
    (((runTwoAtomic nowA nowB cooldown none aFirst).1 = true ∨
      (runTwoAtomic nowA nowB cooldown none aFirst).2 = true) ∧
     ¬ ((runTwoAtomic nowA nowB cooldown none aFirst).1 = true ∧
        (runTwoAtomic nowA nowB cooldown none aFirst).2 = true)) ∧
    ((runTmpSchedule 300 [true, false, true, false]
      (tmpInvStart 1000, tmpInvStart 1000, none)).1.decision = true ∧
     (runTmpSchedule 300 [true, false, true, false]
      (tmpInvStart 1000, tmpInvStart 1000, none)).2.1.decision = true) := by
  refine ⟨?_, by decide⟩
  cases aFirst <;>
    simp only [runTwoAtomic, tryMarkEmailSent, if_true, if_false, Bool.false_eq_true] <;>
    rw [if_neg (by omega)] <;> simp

/-- C1 witness: concrete instance of the amended gate property at clocks 1000
and 1005 with cooldown 300 and A scheduled first. -/
theorem C1_gate_witness :
    (((runTwoAtomic 1000 1005 300 none true).1 = true ∨
      (runTwoAtomic 1000 1005 300 none true).2 = true) ∧
     ¬ ((runTwoAtomic 1000 1005 300 none true).1 = true ∧
        (runTwoAtomic 1000 1005 300 none true).2 = true)) ∧
    ((runTmpSchedule 300 [true, false, true, false]
      (tmpInvStart 1000, tmpInvStart 1000, none)).1.decision = true ∧
     (runTmpSchedule 300 [true, false, true, false]
      (tmpInvStart 1000, tmpInvStart 1000, none)).2.1.decision = true) :=
  C1_amended_gate 1000 1005 300 true (by decide) (by decide)

/-- C2: `try_mark_email_sent` returns true and stores the current time as
`lastEmailSent` exactly when the client has no prior record or the prior
record's timestamp is strictly older than `now - cooldown`; in every other
case it returns false and leaves the stored state unchanged. -/
theorem C2_try_acquire_contract (last : Option ℤ) (now cooldown : ℤ) :
    ((tryMarkEmailSent last now cooldown).1 = true ↔
      last = none ∨ ∃ t, last = some t ∧ t < now - cooldown) ∧
    ((tryMarkEmailSent last now cooldown).1 = true →
      (tryMarkEmailSent last now cooldown).2 = some now) ∧
    ((tryMarkEmailSent last now cooldown).1 = false →
      (tryMarkEmailSent last now cooldown).2 = last) := by
  rcases last with _ | t
  · simp [tryMarkEmailSent]
  · by_cases h : t < now - cooldown <;> simp [tryMarkEmailSent, h]

/-- Embeds the band computation of `lambda_handler` (src/ses_handler.py lines
294-295 and src/ses_handler_new.py lines 348-349):
`lower = target_vol * (1 - tol)`, `upper = target_vol * (1 + tol)`.
Rationals model the exact real arithmetic of those expressions. -/
def bandBounds (target tol : ℚ) : ℚ × ℚ := (target * (1 - tol), target * (1 + tol))

/-- Embeds the classification `within = lower <= portfolio_vol <= upper`
(src/ses_handler.py line 296, src/ses_handler_new.py line 350), inclusive on
both bounds. -/
def withinBand (pv lower upper : ℚ) : Bool := decide (lower ≤ pv ∧ pv ≤ upper)

/-- Embeds `get_vol_tolerance_for_client` (src/ses_handler.py lines 60-66):
the client's `volTolerance` attribute when present and parseable, else the
global default `VOL_TOL_DEFAULT`.  An absent or unparseable stored value is
modelled as `none`. -/
def getVolToleranceForClient (volTolerance : Option ℚ) (dflt : ℚ) : ℚ :=
  match volTolerance with
  | some vt => vt
  | none => dflt

/-- Embeds `target_vol = to_float(client.get("targetRisk")) or portfolio_vol`
(src/ses_handler.py line 292).  Python `or` takes the right operand whenever
the left is falsy, and both `None` and `0.0` are falsy, so an explicit stored
target of 0 also falls back to the portfolio volatility. -/
def targetVolOld (targetRisk : Option ℚ) (pv : ℚ) : ℚ :=
  match targetRisk with
  | none => pv
  | some t => if t = 0 then pv else t

/-- Embeds the target selection of src/ses_handler_new.py lines 342-345:
`target_vol = to_float(client.get("targetRisk")); if target_vol is None:
target_vol = portfolio_vol` — the fallback fires only when the stored target
is absent or unparseable. -/
def targetVolNew (targetRisk : Option ℚ) (pv : ℚ) : ℚ :=
  match targetRisk with
  | none => pv
  | some t => t

/-- C3: the risk band evaluator classifies a portfolio volatility v as within
the band iff target*(1-tol) ≤ v ≤ target*(1+tol), inclusive on both bounds;
for target 0.30 and tolerance 0.10 the bounds are [0.27, 0.33], volatility
exactly 0.27 is within, and 0.269999 is not. -/
theorem C3_risk_band (v target tol : ℚ) :
    (withinBand v (bandBounds target tol).1 (bandBounds target tol).2 = true ↔
      target * (1 - tol) ≤ v ∧ v ≤ target * (1 + tol)) ∧
    bandBounds (3/10) (1/10) = (27/100, 33/100) ∧
    withinBand (27/100) (bandBounds (3/10) (1/10)).1
      (bandBounds (3/10) (1/10)).2 = true ∧
    withinBand (269999/1000000) (bandBounds (3/10) (1/10)).1
      (bandBounds (3/10) (1/10)).2 = false := by
  refine ⟨?_, ?_, ?_, ?_⟩
  · simp [withinBand, bandBounds]
  · norm_num [bandBounds]
  · rw [withinBand, decide_eq_true_iff]
    norm_num [bandBounds]
  · rw [withinBand, decide_eq_false_iff_not]
    norm_num [bandBounds]

/-- A client holding as the handlers read it from the DynamoDB record:
`h.get("ticker")` and `to_float(h.get("quantity"))`, each possibly absent (an
unparseable quantity is modelled as `none`, an empty ticker string is kept and
filtered by the falsiness check below). -/
structure Holding where
  ticker : Option String
  quantity : Option ℚ
deriving DecidableEq

/-- The contribution one holding makes to the aggregation loop of
`compute_portfolio_vol` (src/ses_handler.py lines 82-107): skipped (`none`)
when `not ticker or qty is None or qty <= 0`, otherwise the pair
`(qty, qty * vol)` when the volatility store has a record for the ticker, and
`none` again when it has not. -/
def holdingContrib (store : String → Option ℚ) (h : Holding) : Option (ℚ × ℚ) :=
  match h.ticker, h.quantity with
  | some t, some q =>
      if t = "" ∨ q ≤ 0 then none
      else
        match store t with
        | some v => some (q, q * v)
        | none => none
  | _, _ => none

/-- One step of the accumulation `total_qty += qty; weighted_sum += qty * vol`
in the loop body of `compute_portfolio_vol`. -/
def aggStep (store : String → Option ℚ) (acc : ℚ × ℚ) (h : Holding) : ℚ × ℚ :=
  match holdingContrib store h with
  | some c => (acc.1 + c.1, acc.2 + c.2)
  | none => acc

/-- Embeds `compute_portfolio_vol` (src/ses_handler.py lines 82-107, identical
in src/ses_handler_new.py lines 96-128): left-to-right accumulation of
`(total_qty, weighted_sum)` over the holdings, then
`weighted_sum / total_qty` if `total_qty > 0` else `None`.  The
`holdings_with_vol` list the Python function also returns only feeds the email
body and is not modelled. -/
def computePortfolioVol (store : String → Option ℚ) (holdings : List Holding) :
    Option ℚ :=
  let acc := holdings.foldl (aggStep store) (0, 0)
  if acc.1 > 0 then some (acc.2 / acc.1) else none

/-- The holdings the aggregation actually sums over: present non-empty ticker,
positive quantity, and a volatility record in the store; each contributes
`(quantity, quantity * volatility)`. -/
def contribList (store : String → Option ℚ) (holdings : List Holding) :
    List (ℚ × ℚ) :=
  holdings.filterMap (holdingContrib store)

/-- Total quantity over the holdings that have a record. -/
def totalQty (store : String → Option ℚ) (holdings : List Holding) : ℚ :=
  ((contribList store holdings).map Prod.fst).sum

/-- Quantity-weighted volatility sum over the holdings that have a record. -/
def weightedSum (store : String → Option ℚ) (holdings : List Holding) : ℚ :=
  ((contribList store holdings).map Prod.snd).sum

/-- The left fold of the aggregation loop computes the sums over the
contributing holdings, shifted by the initial accumulator. -/
theorem aggStep_foldl (store : String → Option ℚ) (holdings : List Holding)
    (a b : ℚ) :
    holdings.foldl (aggStep store) (a, b) =
      (a + totalQty store holdings, b + weightedSum store holdings) := by
  induction holdings generalizing a b with
  | nil => simp [totalQty, weightedSum, contribList]
  | cons h t ih =>
      simp only [List.foldl_cons, totalQty, weightedSum, contribList,
        List.filterMap_cons]
      cases hc : holdingContrib store h with
      | none =>
          simpa [aggStep, hc, totalQty, weightedSum, contribList] using ih a b
      | some c =>
          simp only [aggStep, hc]
          rw [ih]
          simp only [totalQty, weightedSum, contribList, List.filterMap_cons, hc,
            List.map_cons, List.sum_cons]
          rw [Prod.mk.injEq]
          constructor <;> ring

/-- A client record as the conditional-update handler reads it from the client
table scan (src/ses_handler.py): stored target risk, tolerance override and
dedup timestamp each possibly absent. -/
structure Client where
  clientID : String
  holdings : List Holding
  targetRisk : Option ℚ
  volTolerance : Option ℚ
  lastEmailSent : Option ℤ

/-- A client is affected by the batch exactly when the set of its holding
tickers intersects the updated tickers
(`holding_tickers & updated_tickers`, src/ses_handler.py lines 276-279). -/
def holdsUpdated (c : Client) (updated : List String) : Bool :=
  c.holdings.any fun h =>
    match h.ticker with
    | some t => updated.contains t
    | none => false

/-- Outcome of processing one client in the loop of `lambda_handler`
(src/ses_handler.py lines 274-305): the client's dedup state after the
iteration, whether an email send was reached, and the computed assessment
`(portfolio_vol, target_vol, lower, upper, within)` when the evaluation ran. -/
structure ClientResult where
  lastEmailSent : Option ℤ
  emailSent : Bool
  assessment : Option (ℚ × ℚ × ℚ × ℚ × Bool)

/-- Embeds the per-client body of `lambda_handler` in src/ses_handler.py
(lines 274-305): skip clients holding no updated ticker; call
`try_mark_email_sent` (which mutates `lastEmailSent` on success) and skip on
False; compute the portfolio volatility and skip when it is `None`; otherwise
evaluate the band and send the email. -/
def processClient (dfltTol : ℚ) (cooldown now : ℤ) (store : String → Option ℚ)
    (updated : List String) (c : Client) : ClientResult :=
  if ¬ holdsUpdated c updated then
    { lastEmailSent := c.lastEmailSent, emailSent := false, assessment := none }
  else
    let gate := tryMarkEmailSent c.lastEmailSent now cooldown
    if ¬ gate.1 then
      { lastEmailSent := gate.2, emailSent := false, assessment := none }
    else
      match computePortfolioVol store c.holdings with
      | none =>
          { lastEmailSent := gate.2, emailSent := false, assessment := none }
      | some pv =>
          let target := targetVolOld c.targetRisk pv
          let tol := getVolToleranceForClient c.volTolerance dfltTol
          let bounds := bandBounds target tol
          { lastEmailSent := gate.2, emailSent := true,
            assessment := some (pv, target, bounds.1, bounds.2,
              withinBand pv bounds.1 bounds.2) }

/-- C4: the aggregator considers only holdings with a present ticker and
positive quantity, skips holdings without a volatility record, and returns
Σ(quantity × volatility) / Σ(quantity) over the contributing holdings; when no
considered holding has a record the result is `none` (not zero) and such a
client is excluded from band evaluation and notification; for holdings
[(A, qty 10, vol 0.2), (B, qty 30, vol 0.4)] the result is 0.35. -/
theorem C4_portfolio_aggregation :
    (∀ (store : String → Option ℚ) (holdings : List Holding),
      computePortfolioVol store holdings =
        if totalQty store holdings > 0 then
          some (weightedSum store holdings / totalQty store holdings)
        else none) ∧
    (∀ (store : String → Option ℚ) (holdings : List Holding),
      contribList store holdings = [] →
        computePortfolioVol store holdings = none) ∧
    (∀ (dfltTol : ℚ) (cooldown now : ℤ) (store : String → Option ℚ)
        (updated : List String) (c : Client),
      computePortfolioVol store c.holdings = none →
        (processClient dfltTol cooldown now store updated c).emailSent = false ∧
        (processClient dfltTol cooldown now store updated c).assessment = none) ∧
    computePortfolioVol
      (fun t => if t = "A" then some (2/10) else
        if t = "B" then some (4/10) else none)
      [⟨some "A", some 10⟩, ⟨some "B", some 30⟩] = some (35/100) := by
  have hchar : ∀ (store : String → Option ℚ) (holdings : List Holding),
      computePortfolioVol store holdings =
        if totalQty store holdings > 0 then
          some (weightedSum store holdings / totalQty store holdings)
        else none := by
    intro store holdings
    rw [computePortfolioVol, aggStep_foldl]
    simp
  refine ⟨hchar, ?_, ?_, ?_⟩
  · intro store holdings hnil
    rw [hchar, totalQty, hnil]
    simp
  · intro dfltTol cooldown now store updated c hnone
    unfold processClient
    by_cases hu : holdsUpdated c updated
    · by_cases hg : (tryMarkEmailSent c.lastEmailSent now cooldown).1 <;>
        simp [hu, hg, hnone]
    · simp [hu]
  · simp +decide only [computePortfolioVol, aggStep, holdingContrib, List.foldl]
    norm_num

/-- C6 counterexample: a client with an explicit stored target volatility of 0
(holding ticker A with quantity 1 and stored volatility 0.5, no prior email,
default tolerance 0.1) is evaluated by src/ses_handler.py with target 0.5 —
the portfolio volatility, not the explicit target 0 — because
`to_float(...) or portfolio_vol` treats the stored 0 as falsy. -/
theorem C6_counterexample :
    (processClient (1/10) 300 1000
      (fun t => if t = "A" then some (1/2) else none) ["A"]
      { clientID := "c1", holdings := [⟨some "A", some 1⟩],
        targetRisk := some 0, volTolerance := none,
        lastEmailSent := none }).assessment =
      some (1/2, 1/2, 9/20, 11/20, true) ∧
    targetVolOld (some 0) (1/2) ≠ 0 := by
  constructor
  · simp +decide only [processClient, holdsUpdated, tryMarkEmailSent,
      computePortfolioVol, aggStep, holdingContrib, targetVolOld,
      getVolToleranceForClient, bandBounds, withinBand, List.foldl, List.any,
      List.contains]
    norm_num
  · norm_num [targetVolOld]

/-- C6 (amended): in src/ses_handler_new.py the band target is the stored
target whenever one is present (including an explicit 0) and falls back to the
portfolio volatility only when none is stored; in src/ses_handler.py the
fallback additionally fires when the stored target is 0, because Python `or`
treats 0.0 as falsy.  In both handlers the client-specific tolerance override
is used whenever present and the global default only otherwise. -/
theorem C6_amended_target_selection :
    (∀ (t pv : ℚ), targetVolNew (some t) pv = t) ∧
    (∀ pv : ℚ, targetVolNew none pv = pv) ∧
    (∀ (t pv : ℚ), t ≠ 0 → targetVolOld (some t) pv = t) ∧
    (∀ pv : ℚ, targetVolOld (some 0) pv = pv) ∧
    (∀ pv : ℚ, targetVolOld none pv = pv) ∧
    (∀ (vt d : ℚ), getVolToleranceForClient (some vt) d = vt) ∧
    (∀ d : ℚ, getVolToleranceForClient none d = d) := by
  refine ⟨fun t pv => rfl, fun pv => rfl, ?_, fun pv => ?_, fun pv => rfl,
    fun vt d => rfl, fun d => rfl⟩
  · intro t pv ht
    simp [targetVolOld, ht]
  · simp [targetVolOld]

/-- C8 counterexample: a client whose stored tolerance override is -0.5
(target 0.3, one holding A of quantity 1 with stored volatility 0.3, no prior
email) is evaluated with lower bound 0.45 and upper bound 0.15 — the computed
band has lower > upper, so non-negativity of the tolerance is not enforced. -/
theorem C8_counterexample :
    (processClient (1/10) 300 1000
      (fun t => if t = "A" then some (3/10) else none) ["A"]
      { clientID := "c1", holdings := [⟨some "A", some 1⟩],
        targetRisk := some (3/10), volTolerance := some (-(1/2)),
        lastEmailSent := none }).assessment =
      some (3/10, 3/10, 9/20, 3/20, false) ∧
    ¬ ((9/20 : ℚ) ≤ 3/20) := by
  constructor
  · simp +decide only [processClient, holdsUpdated, tryMarkEmailSent,
      computePortfolioVol, aggStep, holdingContrib, targetVolOld,
      getVolToleranceForClient, bandBounds, withinBand, List.foldl, List.any,
      List.contains]
    norm_num
  · norm_num

/-- C8 (amended): the computed band satisfies lower ≤ upper whenever the
effective tolerance and the target are non-negative; the code does not enforce
tolerance ≥ 0 — `get_vol_tolerance_for_client` passes a stored negative
override through unchanged, and such an override yields lower > upper. -/
theorem C8_amended_band_order (target tol : ℚ)
    (htol : 0 ≤ tol) (htarget : 0 ≤ target) :
    (bandBounds target tol).1 ≤ (bandBounds target tol).2 ∧
    getVolToleranceForClient (some (-(1/2))) (1/10) = -(1/2) := by
  refine ⟨?_, rfl⟩
  simp only [bandBounds]
  nlinarith

/-- C8 witness: the amended band-order property at target 0.3 and
tolerance 0.1. -/
theorem C8_band_witness :
    (bandBounds (3/10) (1/10)).1 ≤ (bandBounds (3/10) (1/10)).2 ∧
    getVolToleranceForClient (some (-(1/2))) (1/10) = -(1/2) :=
  C8_amended_band_order (3/10) (1/10) (by norm_num) (by norm_num)

/-- A stored PredictedVolatility item for one ticker: the DynamoDB sort key
`date` — a string that src/risk_handler.py line 213 writes as
`latest_date.strftime("%d.%m.%Y")` — and the stored predicted volatility. -/
structure VolRecord where
  date : String
  vol : ℚ

/-- Byte-order comparison of character lists, as the DynamoDB sort-key
comparator orders ASCII string keys. -/
def charsLe : List Char → List Char → Bool
  | [], _ => true
  | _ :: _, [] => false
  | a :: as, b :: bs =>
      if a < b then true else if b < a then false else charsLe as bs

/-- Byte-order comparison of two string sort keys. -/
def strLe (a b : String) : Bool := charsLe a.toList b.toList

/-- The item the query of `get_latest_vol_for_ticker` (src/ses_handler.py
lines 69-79) receives: `ScanIndexForward=False, Limit=1` returns the stored
item whose `date` string is greatest in the sort key's byte order. -/
def lexLatestRecord : List VolRecord → Option VolRecord
  | [] => none
  | r :: rs =>
      match lexLatestRecord rs with
      | none => some r
      | some m => if strLe m.date r.date then some r else some m

/-- Embeds `get_latest_vol_for_ticker`: the `predicted_volatility` of the
item with the greatest date string in byte order, or `none` when the ticker
has no item. -/
def getLatestVolForTicker (records : List VolRecord) : Option ℚ :=
  (lexLatestRecord records).map VolRecord.vol

/-- The dot character of the `dd.mm.yyyy` layout (code point 46). -/
def dotChar : Char := Char.ofNat 46

/-- Numeric value of an ASCII digit character. -/
def digitVal (c : Char) : Option ℕ :=
  if c.isDigit then some (c.toNat - 48) else none

/-- Chronological key of a date string in the `dd.mm.yyyy` layout written by
src/risk_handler.py line 213: `(year, month, day)`, so that the
lexicographic order on the triple is the chronological order of the dates. -/
def dateKey (s : String) : Option (ℕ × ℕ × ℕ) :=
  match s.toList with
  | [d1, d2, p1, m1, m2, p2, y1, y2, y3, y4] =>
      if p1 = dotChar ∧ p2 = dotChar then
        match digitVal d1, digitVal d2, digitVal m1, digitVal m2,
            digitVal y1, digitVal y2, digitVal y3, digitVal y4 with
        | some a, some b, some c, some d, some e, some f, some g, some h =>
            some (1000 * e + 100 * f + 10 * g + h, 10 * c + d, 10 * a + b)
        | _, _, _, _, _, _, _, _ => none
      else none
  | _ => none

/-- Lexicographic comparison of `(year, month, day)` triples: the
chronological order on parsed dates. -/
def tripleLe (a b : ℕ × ℕ × ℕ) : Bool :=
  if a.1 < b.1 then true
  else if b.1 < a.1 then false
  else if a.2.1 < b.2.1 then true
  else if b.2.1 < a.2.1 then false
  else decide (a.2.2 ≤ b.2.2)

/-- Reference definition from the claim's words: the record that is
chronologically most recent, i.e. greatest by parsed `(year, month, day)`
date (records whose dates do not parse are not preferred). -/
def chronLatestRecord : List VolRecord → Option VolRecord
  | [] => none
  | r :: rs =>
      match chronLatestRecord rs with
      | none => some r
      | some m =>
          match dateKey m.date, dateKey r.date with
          | some km, some kr => if tripleLe km kr then some r else some m
          | _, _ => some m

/-- The chronologically most recent volatility for a ticker, per the claim. -/
def chronLatestVol (records : List VolRecord) : Option ℚ :=
  (chronLatestRecord records).map VolRecord.vol

/-- C5: with records written under the `dd.mm.yyyy` layout, the descending
byte-order query of `get_latest_vol_for_ticker` does not return the
chronologically most recent record: for a ticker holding a record dated
31.01.2025 with volatility 0.2 and one dated 01.02.2025 with volatility 0.5,
the query returns 0.2 (the key "31.01.2025" is byte-greater) while the
chronologically most recent volatility is 0.5. -/
theorem C5_lex_vs_chronological :
    getLatestVolForTicker
      [⟨"31.01.2025", 2/10⟩, ⟨"01.02.2025", 5/10⟩] = some (2/10) ∧
    chronLatestVol
      [⟨"31.01.2025", 2/10⟩, ⟨"01.02.2025", 5/10⟩] = some (5/10) ∧
    dateKey "31.01.2025" = some (2025, 1, 31) ∧
    dateKey "01.02.2025" = some (2025, 2, 1) ∧
    tripleLe (2025, 1, 31) (2025, 2, 1) = true ∧
    (2/10 : ℚ) ≠ 5/10 := by
  refine ⟨rfl, rfl, by decide, by decide, by decide, by norm_num⟩

/-- Value of the pandas float cell holding the up/down ratio: NaN, positive
infinity, or a finite value.  The up and down counts are small integers,
exactly representable, so finite cells are exact rationals. -/
inductive PVal where
  | nan : PVal
  | inf : PVal
  | fin (val : ℚ) : PVal
deriving DecidableEq

/-- Pandas division of the two non-negative rolling counts
(src/risk_handler.py line 129): a positive count divided by zero is +inf,
0/0 is NaN, otherwise the exact quotient. -/
def pdiv (a b : ℚ) : PVal :=
  if b = 0 then (if a = 0 then PVal.nan else PVal.inf) else PVal.fin (a / b)

/-- The fill `features.fillna({..., "up_down_ratio": 1})`
(src/risk_handler.py lines 147-156): NaN becomes 1; every other value,
including +inf, is left unchanged. -/
def fillna1 : PVal → PVal
  | PVal.nan => PVal.fin 1
  | v => v

/-- Tail of `df["adj_close"].pct_change()` after the first cell: each cell is
(p - prev) / prev.  A zero previous close cannot occur for the positive price
series the pipeline handles and is mapped to `none`. -/
def pctChangeAux : ℚ → List ℚ → List (Option ℚ)
  | _, [] => []
  | prev, p :: ps =>
      (if prev = 0 then none else some ((p - prev) / prev)) :: pctChangeAux p ps

/-- Embeds `df["return"] = df["adj_close"].pct_change()`
(src/risk_handler.py line 88): the first cell is NaN (`none`). -/
def pctChange : List ℚ → List (Option ℚ)
  | [] => []
  | p :: ps => none :: pctChangeAux p ps

/-- Count of positive-return cells, `(df["return"] > 0).astype(int)` summed
over the window (src/risk_handler.py lines 127-129); a NaN comparison is
False. -/
def upCount (rets : List (Option ℚ)) : ℕ :=
  rets.countP fun r =>
    match r with
    | some v => decide (0 < v)
    | none => false

/-- Count of negative-return cells, `(df["return"] < 0).astype(int)` summed
over the window. -/
def downCount (rets : List (Option ℚ)) : ℕ :=
  rets.countP fun r =>
    match r with
    | some v => decide (v < 0)
    | none => false

/-- The `up_down_ratio` cell of the one feature row `compute_features`
returns for the 30-bar frame `lambda_handler` passes it (src/risk_handler.py
lines 127-129, 146-158): on a 30-row frame the rolling-30 sums of the last
row are the total counts over the frame; their pandas quotient is then
NaN-filled with 1. -/
def upDownCell (closes : List ℚ) : PVal :=
  fillna1 (pdiv (upCount (pctChange closes)) (downCount (pctChange closes)))

/-- C7 counterexample: for the 30-bar series of strictly increasing closes
1, 2, ..., 30 the trailing window has zero negative-return bars, yet the
returned `up_down_ratio` is +inf, not 1: pandas evaluates 29/0 as +inf, which
is not NaN and is therefore untouched by the fillna default. -/
theorem C7_counterexample :
    upDownCell ((List.range 30).map fun i => ((i : ℚ) + 1)) = PVal.inf ∧
    downCount (pctChange ((List.range 30).map fun i => ((i : ℚ) + 1))) = 0 ∧
    PVal.inf ≠ PVal.fin 1 := by
  have hlist : (List.range 30).map (fun i => ((i : ℚ) + 1)) =
      [1, 2, 3, 4, 5, 6, 7, 8, 9, 10, 11, 12, 13, 14, 15, 16, 17, 18, 19, 20,
       21, 22, 23, 24, 25, 26, 27, 28, 29, 30] := by
    norm_num [List.range_succ]
  rw [hlist]
  refine ⟨?_, ?_, by simp⟩ <;>
    norm_num [upDownCell, fillna1, pdiv, upCount, downCount, pctChange,
      pctChangeAux, List.countP, List.countP.go]

/-- C7 (amended): the returned `up_down_ratio` equals 1 exactly when the
window's positive-return count equals its negative-return count — when both
are zero the 0/0 NaN is filled with 1, and when both are equal and positive
the quotient is exactly 1; a window with zero negative-return bars and at
least one positive-return bar instead yields +inf, which the NaN fill does
not touch. -/
theorem C7_amended_ratio_one_iff (closes : List ℚ) :
    upDownCell closes = PVal.fin 1 ↔
      upCount (pctChange closes) = downCount (pctChange closes) := by
  unfold upDownCell
  generalize upCount (pctChange closes) = u
  generalize downCount (pctChange closes) = d
  by_cases hd : d = 0
  · subst hd
    by_cases hu : u = 0
    · subst hu
      simp [pdiv, fillna1]
    · have huq : (u : ℚ) ≠ 0 := Nat.cast_ne_zero.mpr hu
      simp [pdiv, fillna1, huq, hu]
  · have hdq : (d : ℚ) ≠ 0 := Nat.cast_ne_zero.mpr hd
    simp only [pdiv, if_neg hdq, fillna1, PVal.fin.injEq]
    rw [div_eq_one_iff_eq hdq]
    exact_mod_cast Iff.rfl

/-- Failure of the Historical Estimator on a window with too many undefined
returns. -/
inductive EstErr where
  | insufficientData : EstErr
deriving DecidableEq

/-- Modelled from the spec: daily returns of a price series whose cells may be
missing.  The Historical Estimator of §4.2 is not among the repository's
files (only the predictive path of src/risk_handler.py is); this and the
following definitions model it from the spec's words.  A return is undefined
(`none`) when either neighbouring price is missing or the previous price is
zero. -/
def dailyReturns : List (Option ℚ) → List (Option ℚ)
  | [] => []
  | [_] => []
  | p :: q :: ps =>
      (match p, q with
       | some a, some b => if a = 0 then none else some ((b - a) / a)
       | _, _ => none) :: dailyReturns (q :: ps)

/-- Modelled from the spec: the trailing 30 entries of the return series. -/
def trailing30 (rets : List (Option ℚ)) : List (Option ℚ) :=
  rets.drop (rets.length - 30)

/-- Number of undefined values in a window. -/
def undefCount (rets : List (Option ℚ)) : ℕ :=
  rets.countP fun r => r.isNone

/-- The defined values of a window, in order. -/
def definedVals (rets : List (Option ℚ)) : List ℚ :=
  rets.filterMap id

/-- Mean of a list of rationals. -/
def listMean (l : List ℚ) : ℚ := l.sum / l.length

/-- Sample variance with the n−1 denominator — the pandas `std` convention
used by the repository's feature code (src/risk_handler.py line 90). -/
def sampleVar (l : List ℚ) : ℚ :=
  if l.length ≤ 1 then 0
  else ((l.map fun x => (x - listMean l) ^ 2).sum) / ((l.length : ℚ) - 1)

/-- Modelled from the spec: the Historical Estimator of §4.2 — compute daily
returns, take the trailing 30, fail with InsufficientDataError when more than
5 of them are undefined, and otherwise return
stddev(trailing 30 returns) × √252, with 252 the sole annualization
constant. -/
noncomputable def histEstimator (prices : List (Option ℚ)) : Except EstErr ℝ :=
  let window := trailing30 (dailyReturns prices)
  if 5 < undefCount window then Except.error EstErr.insufficientData
  else
    Except.ok
      (Real.sqrt (sampleVar (definedVals window)) * Real.sqrt 252)

/-- C9 (spec-modelled): on a series whose trailing 30 returns contain zero
undefined values the Historical Estimator returns
stddev(trailing returns) × √252, and on a series whose trailing window
contains more than 5 undefined values it fails with InsufficientDataError. -/
theorem C9_historical_estimator (prices : List (Option ℚ)) :
    (undefCount (trailing30 (dailyReturns prices)) = 0 →
      histEstimator prices =
        Except.ok
          (Real.sqrt (sampleVar (definedVals (trailing30 (dailyReturns prices)))) *
            Real.sqrt 252)) ∧
    (5 < undefCount (trailing30 (dailyReturns prices)) →
      histEstimator prices = Except.error EstErr.insufficientData) := by
  constructor
  · intro h
    simp only [histEstimator, h]
    norm_num
  · intro h
    simp only [histEstimator, if_pos h]

/-- C9 witness: both branches at concrete inputs — a fully defined price
series of 31 cells (30 defined returns, zero undefined), and a 7-cell series
with every second cell missing (6 undefined returns, more than 5). -/
theorem C9_estimator_witness :
    (undefCount (trailing30 (dailyReturns
        [some 1, some 2, some 3, some 4, some 5, some 6, some 7, some 8,
         some 9, some 10, some 11, some 12, some 13, some 14, some 15, some 16,
         some 17, some 18, some 19, some 20, some 21, some 22, some 23, some 24,
         some 25, some 26, some 27, some 28, some 29, some 30, some 31])) = 0 ∧
      histEstimator
        [some 1, some 2, some 3, some 4, some 5, some 6, some 7, some 8,
         some 9, some 10, some 11, some 12, some 13, some 14, some 15, some 16,
         some 17, some 18, some 19, some 20, some 21, some 22, some 23, some 24,
         some 25, some 26, some 27, some 28, some 29, some 30, some 31] =
        Except.ok
          (Real.sqrt (sampleVar (definedVals (trailing30 (dailyReturns
            [some 1, some 2, some 3, some 4, some 5, some 6, some 7, some 8,
             some 9, some 10, some 11, some 12, some 13, some 14, some 15, some 16,
             some 17, some 18, some 19, some 20, some 21, some 22, some 23, some 24,
             some 25, some 26, some 27, some 28, some 29, some 30, some 31])))) *
            Real.sqrt 252)) ∧
    (5 < undefCount (trailing30 (dailyReturns
        [some 1, none, some 1, none, some 1, none, some 1])) ∧
      histEstimator [some 1, none, some 1, none, some 1, none, some 1] =
        Except.error EstErr.insufficientData) := by
  have h1 : undefCount (trailing30 (dailyReturns
      [some 1, some 2, some 3, some 4, some 5, some 6, some 7, some 8,
       some 9, some 10, some 11, some 12, some 13, some 14, some 15, some 16,
       some 17, some 18, some 19, some 20, some 21, some 22, some 23, some 24,
       some 25, some 26, some 27, some 28, some 29, some 30, some 31])) = 0 := by
    norm_num [undefCount, trailing30, dailyReturns, List.countP, List.countP.go]
  have h2 : 5 < undefCount (trailing30 (dailyReturns
      [some 1, none, some 1, none, some 1, none, some 1])) := by
    norm_num [undefCount, trailing30, dailyReturns, List.countP, List.countP.go]
  exact ⟨⟨h1, (C9_historical_estimator _).1 h1⟩,
    ⟨h2, (C9_historical_estimator _).2 h2⟩⟩

/-- C10: in the conditional-update handler the cooldown acquisition happens
before the portfolio volatility is computed, so a client holding an updated
ticker whose gate precondition holds (no prior record, or a record strictly
older than now − cooldown) but whose aggregation yields no volatility still
has `lastEmailSent` advanced to the current time, receives no email, and every
later acquisition at a time within the cooldown window (t ≤ now + cooldown)
returns false. -/
theorem C10_acquire_before_aggregation
    (dfltTol : ℚ) (cooldown now : ℤ) (store : String → Option ℚ)
    (updated : List String) (c : Client)
    (hheld : holdsUpdated c updated = true)
    (hgate : c.lastEmailSent = none ∨
      ∃ t, c.lastEmailSent = some t ∧ t < now - cooldown)
    (hagg : computePortfolioVol store c.holdings = none) :
    (processClient dfltTol cooldown now store updated c).lastEmailSent =
      some now ∧
    (processClient dfltTol cooldown now store updated c).emailSent = false ∧
    (∀ t2 : ℤ, t2 ≤ now + cooldown →
      (tryMarkEmailSent (some now) t2 cooldown).1 = false) := by
  have hg : tryMarkEmailSent c.lastEmailSent now cooldown = (true, some now) := by
    rcases hgate with h | ⟨t, ht, hlt⟩
    · rw [h]
      rfl
    · rw [ht]
      simp [tryMarkEmailSent, hlt]
  have hres : processClient dfltTol cooldown now store updated c =
      { lastEmailSent := some now, emailSent := false, assessment := none } := by
    simp [processClient, hheld, hg, hagg]
  refine ⟨by rw [hres], by rw [hres], ?_⟩
  intro t2 ht2
  simp only [tryMarkEmailSent]
  rw [if_neg (by omega)]

/-- C10 witness: client c1 holds updated ticker A with no prior email record,
the store has no record for A, cooldown 300, now 1000: the gate fires,
`lastEmailSent` becomes 1000, no email is sent, and an acquisition at
time 1200 (within the cooldown window) returns false. -/
theorem C10_blocked_witness :
    (processClient (1/10) 300 1000 (fun _ => none) ["A"]
      { clientID := "c1", holdings := [⟨some "A", some 1⟩],
        targetRisk := none, volTolerance := none,
        lastEmailSent := none }).lastEmailSent = some 1000 ∧
    (processClient (1/10) 300 1000 (fun _ => none) ["A"]
      { clientID := "c1", holdings := [⟨some "A", some 1⟩],
        targetRisk := none, volTolerance := none,
        lastEmailSent := none }).emailSent = false ∧
    (∀ t2 : ℤ, t2 ≤ 1000 + 300 →
      (tryMarkEmailSent (some 1000) t2 300).1 = false) :=
  C10_acquire_before_aggregation (1/10) 300 1000 (fun _ => none) ["A"]
    { clientID := "c1", holdings := [⟨some "A", some 1⟩],
      targetRisk := none, volTolerance := none, lastEmailSent := none }
    (by decide) (Or.inl rfl)
    (by norm_num [computePortfolioVol, aggStep, holdingContrib, List.foldl])

end PortfolioS3
